import Mathlib

/-!
Shallow embedding of the core of `vite-plugin-auto-deploy` (src/index.ts):
option normalization, remote-command construction, the confirmation gate,
the deploy orchestration in `closeBundle`, and the `rollback` orchestration.
JavaScript records are modelled with a three-state field type (absent key,
key present with value `undefined`, key present with a value), so that the
semantics of the `??` operator and of object spread are captured exactly.
-/

/-- A JavaScript object field: the key may be absent, present with value
`undefined`, or present with a proper value. -/
inductive JSField (α : Type) where
  | absent
  | undef
  | val (a : α)
deriving DecidableEq, Repr

namespace JSField

/-- Reading the property: both an absent key and an `undefined` value read as
`undefined` (`none`). -/
def get : JSField α → Option α
  | .val a => some a
  | _ => none

/-- The `??` (nullish coalescing) operator: `x ?? d`. -/
def nullish (f : JSField α) (d : α) : α := (f.get).getD d

/-- Object-spread override: `{ base, ...over }` for one key. A key absent from
the spread source leaves the base value; a present key (even with value
`undefined`) overwrites it. -/
def spread (base over : JSField α) : JSField α :=
  match over with
  | .absent => base
  | o => o

end JSField

/-- JavaScript truthiness of a string-typed field: `undefined` and the empty
string are falsy. -/
def truthyS : JSField String → Bool
  | .val s => s ≠ ""
  | _ => false

/-- The strict comparison `x === true` for a boolean-typed field. -/
def isTrue : JSField Bool → Bool
  | .val true => true
  | _ => false

/-- Template-literal interpolation of a string-typed field
(an `undefined` value prints as the string "undefined"). -/
def jsStr : JSField String → String
  | .val s => s
  | _ => "undefined"

/-- The `AutoDeployOptions` record (src/index.ts lines 9-28). `transport` is
kept as a runtime string: the TypeScript union type is erased at runtime and
the config may arrive from a plain JS config file. -/
structure AutoDeployOptions where
  remoteUser  : JSField String := .absent
  remoteIp    : JSField String := .absent
  remotePort  : JSField String := .absent
  remoteDir   : JSField String := .absent
  backupDir   : JSField String := .absent
  privateKey  : JSField String := .absent
  transport   : JSField String := .absent
  localDist   : JSField String := .absent
  autoConfirm : JSField Bool := .absent
deriving DecidableEq, Repr

/-- The function `normalizeOptions` (src/index.ts lines 39-56): validates the two required
fields, then builds an object of computed defaults and spreads the raw
`options` record over it. -/
def normalizeOptions (options : AutoDeployOptions) : Except String AutoDeployOptions :=
  if truthyS options.remoteIp = false then
    .error "缺少必填配置：remoteIp（服务器 IP）"
  else if truthyS options.remoteDir = false then
    .error "缺少必填配置：remoteDir（服务器目标目录）"
  else
    .ok {
      remoteUser := (JSField.val (options.remoteUser.nullish "root")).spread options.remoteUser
      remotePort := (JSField.val (options.remotePort.nullish "22")).spread options.remotePort
      transport := (JSField.val (options.transport.nullish "scp")).spread options.transport
      backupDir := (JSField.val
        (options.backupDir.nullish (jsStr options.remoteDir ++ "_backups"))).spread
        options.backupDir
      localDist := (JSField.val (options.localDist.nullish "dist")).spread options.localDist
      autoConfirm := (JSField.val (options.autoConfirm.nullish false)).spread options.autoConfirm
      remoteIp := options.remoteIp
      remoteDir := options.remoteDir
      privateKey := options.privateKey
    }

/-- The function `getSshBaseCmd` (src/index.ts lines 72-78). -/
def getSshBaseCmd (config : AutoDeployOptions) : String :=
  let cmd := "ssh -p " ++ jsStr config.remotePort
  let cmd := if truthyS config.privateKey then cmd ++ " -i " ++ jsStr config.privateKey else cmd
  cmd ++ " " ++ jsStr config.remoteUser ++ "@" ++ jsStr config.remoteIp

/-- A JavaScript `Date` value at deployment start, split into UTC components
(as rendered by `toISOString`). -/
structure JSDate where
  year : Nat
  month : Nat
  day : Nat
  hour : Nat
  minute : Nat
  second : Nat
  ms : Nat
deriving DecidableEq, Repr

/-- The decimal digit character for `n % 10`. -/
def digit (n : Nat) : Char := Char.ofNat (48 + n % 10)

/-- Two-digit zero-padded decimal rendering (exact for `n < 100`, the range of
every `Date` component below the year). -/
def pad2c (n : Nat) : List Char := [digit (n / 10), digit n]

/-- Three-digit zero-padded decimal rendering of the milliseconds field. -/
def pad3c (n : Nat) : List Char := [digit (n / 100), digit (n / 10), digit n]

/-- Four-digit zero-padded decimal rendering of the year (exact for
`n < 10000`, the `toISOString` basic-format range). -/
def pad4c (n : Nat) : List Char := [digit (n / 1000), digit (n / 100), digit (n / 10), digit n]

/-- The character sequence of `Date.prototype.toISOString`:
`YYYY-MM-DDTHH:mm:ss.sssZ`. -/
def toISOStringChars (d : JSDate) : List Char :=
  pad4c d.year ++ ['-'] ++ pad2c d.month ++ ['-'] ++ pad2c d.day ++ ['T'] ++
    pad2c d.hour ++ [':'] ++ pad2c d.minute ++ [':'] ++ pad2c d.second ++ ['.'] ++
    pad3c d.ms ++ ['Z']

/-- One step of `.replace(/[:T.]/g, '-')`: the regex is a single-character
class, so the replacement is a character map. -/
def replChar (c : Char) : Char :=
  if c = ':' ∨ c = 'T' ∨ c = '.' then '-' else c

/-- The timestamp of src/index.ts lines 121-124:
`new Date().toISOString().replace(/[:T.]/g, '-').slice(0, 19)`. -/
def timestamp (d : JSDate) : String :=
  ⟨((toISOStringChars d).map replChar).take 19⟩

/-- The backup archive path of src/index.ts line 125. -/
def mkBackupFile (config : AutoDeployOptions) (d : JSDate) : String :=
  jsStr config.backupDir ++ "/" ++ timestamp d ++ "_backup.tar.gz"

/-- The backup-creation remote command of src/index.ts lines 130-133. -/
def mkBackupCmd (config : AutoDeployOptions) (backupFile : String) : String :=
  getSshBaseCmd config ++ " \"mkdir -p " ++ jsStr config.backupDir ++ " && tar -zcvf " ++
    backupFile ++ " -C " ++ jsStr config.remoteDir ++ " .\""

/-- The transfer command construction of src/index.ts lines 137-149: an
`if/else if` chain over the runtime value of `transport`, leaving the initial
empty string when neither branch matches. -/
def mkTransferCmd (config : AutoDeployOptions) (buildOutputDir : String) : String :=
  if config.transport = .val "scp" then
    "scp -r -P " ++ jsStr config.remotePort ++
      (if truthyS config.privateKey then " -i " ++ jsStr config.privateKey else "") ++
      " ./" ++ buildOutputDir ++ " " ++ jsStr config.remoteUser ++ "@" ++
      jsStr config.remoteIp ++ ":" ++ jsStr config.remoteDir
  else if config.transport = .val "rsync" then
    "rsync -avz -e \"ssh -p " ++ jsStr config.remotePort ++ " " ++
      (if truthyS config.privateKey then "-i " ++ jsStr config.privateKey else "") ++
      "\" ./" ++ buildOutputDir ++ " " ++ jsStr config.remoteUser ++ "@" ++
      jsStr config.remoteIp ++ ":" ++ jsStr config.remoteDir
  else ""

/-- The hook `configResolved` (src/index.ts line 100):
`buildOutputDir = config.localDist || resolved.build.outDir || 'dist'`,
where `config` is the already-normalized options record and `outDir` is the
build tool's resolved output directory (always a string in Vite). -/
def resolveBuildOutputDir (config : AutoDeployOptions) (outDir : String) : String :=
  if truthyS config.localDist then jsStr config.localDist
  else if outDir ≠ "" then outDir
  else "dist"

/-- Outcome of the confirmation gate: the decision, and how many times the
interactive prompt was issued. -/
structure GateResult where
  proceed : Bool
  prompts : Nat
deriving DecidableEq, Repr

/-- A whitespace character for JavaScript's `String.prototype.trim`
(ASCII part; the full JS set also has Unicode spaces, irrelevant here). -/
def isWs (c : Char) : Bool :=
  c = ' ' || c = '\t' || c = '\n' || c = '\r' || c = '\x0b' || c = '\x0c'

/-- JavaScript `String.prototype.trim`: strip leading and trailing
whitespace. -/
def jsTrim (s : String) : String :=
  ⟨((s.data.dropWhile isWs).reverse.dropWhile isWs).reverse⟩

/-- ASCII lower-casing of one character (the case-insensitive regex below
only involves ASCII letters). -/
def lowerChar (c : Char) : Char :=
  if 'A' ≤ c ∧ c ≤ 'Z' then Char.ofNat (c.toNat + 32) else c

/-- JavaScript `String.prototype.toLowerCase` on the relevant ASCII range. -/
def jsToLower (s : String) : String := ⟨s.data.map lowerChar⟩

/-- The answer test of src/index.ts line 90: `/^y(es)?$/i.test(answer.trim())`.
The anchored case-insensitive regex accepts exactly the strings whose trimmed
lower-casing is "y" or "yes". -/
def testYes (answer : String) : Bool :=
  jsToLower (jsTrim answer) = "y" || jsToLower (jsTrim answer) = "yes"

/-- The function `askForConfirmation` (src/index.ts lines 80-93): declines without
prompting when stdin or stdout is not a TTY; otherwise issues the prompt once
and tests the answer. -/
def askForConfirmation (stdinTTY stdoutTTY : Bool) (answer : String) : GateResult :=
  if stdinTTY = false || stdoutTTY = false then ⟨false, 0⟩
  else ⟨testYes answer, 1⟩

/-- The confirmation gate as sequenced in `closeBundle`
(src/index.ts lines 109-115): `autoConfirm === true` proceeds without asking,
otherwise the decision is `askForConfirmation`'s. -/
def shouldProceed (config : AutoDeployOptions) (stdinTTY stdoutTTY : Bool)
    (answer : String) : GateResult :=
  if isTrue config.autoConfirm then ⟨true, 0⟩
  else askForConfirmation stdinTTY stdoutTTY answer

/-- The part of Vite's `ResolvedConfig` the plugin reads. -/
structure ViteResolvedConfig where
  command : String
  outDir : String
deriving DecidableEq, Repr

/-- Result of a `closeBundle` run. -/
inductive DeployOutcome where
  | skipped
  | cancelled
  | deployFailed
  | deployed (backupFile : String)
deriving DecidableEq, Repr

/-- The hook `closeBundle` (src/index.ts lines 104-160). `execOk` is the oracle for
`execSync` success; the second component collects every command passed to
`execSync`, in order (a failing command is collected too: it was invoked and
then threw, aborting the rest of the `try` block). -/
def closeBundle (config : AutoDeployOptions) (resolvedConfig : Option ViteResolvedConfig)
    (stdinTTY stdoutTTY : Bool) (answer : String) (d : JSDate) (buildOutputDir : String)
    (execOk : String → Bool) : DeployOutcome × List String :=
  match resolvedConfig with
  | none => (.skipped, [])
  | some rc =>
    if rc.command ≠ "build" then (.skipped, [])
    else if (shouldProceed config stdinTTY stdoutTTY answer).proceed = false then
      (.cancelled, [])
    else
      let backupFile := mkBackupFile config d
      let backupCmd := mkBackupCmd config backupFile
      if execOk backupCmd = false then (.deployFailed, [backupCmd])
      else
        let transferCmd := mkTransferCmd config buildOutputDir
        if execOk transferCmd = false then (.deployFailed, [backupCmd, transferCmd])
        else (.deployed backupFile, [backupCmd, transferCmd])

/-- The rollback-side SSH base command (src/index.ts lines 171-173); its
spacing differs slightly from `getSshBaseCmd`, so it is embedded separately. -/
def mkRollbackSshBase (config : AutoDeployOptions) : String :=
  "ssh -p " ++ jsStr config.remotePort ++ " " ++
    (if truthyS config.privateKey then "-i " ++ jsStr config.privateKey ++ " " else "") ++
    jsStr config.remoteUser ++ "@" ++ jsStr config.remoteIp

/-- The backup-listing remote command of src/index.ts lines 178-181. -/
def mkListCmd (config : AutoDeployOptions) : String :=
  mkRollbackSshBase config ++ " \"ls -t " ++ jsStr config.backupDir ++ "/*.tar.gz\""

/-- The restore remote command of src/index.ts lines 198-201. -/
def mkRestoreCmd (config : AutoDeployOptions) (target : String) : String :=
  mkRollbackSshBase config ++ " \"tar -zxvf " ++ target ++ " -C " ++
    jsStr config.remoteDir ++ "\""

/-- JavaScript `String.prototype.split` with a single-character separator:
accumulate the current piece and cut at each separator occurrence. -/
def jsSplitAux (sep : Char) : List Char → List Char → List String
  | [], acc => [⟨acc.reverse⟩]
  | c :: rest, acc =>
    if c = sep then ⟨acc.reverse⟩ :: jsSplitAux sep rest []
    else jsSplitAux sep rest (c :: acc)

/-- JavaScript `s.split(sep)` for a one-character separator. -/
def jsSplit (s : String) (sep : Char) : List String := jsSplitAux sep s.data []

/-- Parsing the listing output (src/index.ts line 182):
`backupsOutput.trim().split('\n').filter(Boolean)` — `filter(Boolean)` drops
exactly the empty strings. -/
def parseBackups (backupsOutput : String) : List String :=
  (jsSplit (jsTrim backupsOutput) '\n').filter (fun s => s ≠ "")

/-- Result of a `rollback` run, with the commands passed to `execSync` in
order. -/
inductive RollbackOutcome where
  | configError (msg : String)
  | listingFailed (executed : List String)
  | noBackups (executed : List String) (msg : String)
  | restoreFailed (executed : List String)
  | restored (executed : List String) (target : String)
deriving DecidableEq, Repr

/-- The function `rollback` (src/index.ts lines 168-208). `listingResult` is the captured
output of the listing command (`none` when it exits non-zero and `execSync`
throws); `restoreOk` is the success oracle for the restore command. -/
def rollback (options : AutoDeployOptions) (listingResult : Option String)
    (restoreOk : Bool) : RollbackOutcome :=
  match normalizeOptions options with
  | .error e => .configError e
  | .ok config =>
    let listCmd := mkListCmd config
    match listingResult with
    | none => .listingFailed [listCmd]
    | some backupsOutput =>
      match parseBackups backupsOutput with
      | [] => .noBackups [listCmd] "没有找到备份文件，请先部署至少一次"
      | target :: _ =>
        let restoreCmd := mkRestoreCmd config target
        if restoreOk then .restored [listCmd, restoreCmd] target
        else .restoreFailed [listCmd, restoreCmd]

/-- Spec-side predicate: a decimal digit character. -/
def isDigitCh (c : Char) : Bool := decide ('0' ≤ c) && decide (c ≤ '9')

/-- Spec-side predicate: the `YYYY-MM-DD-HH-MM-SS` timestamp shape of §3/§6 of
the spec — 19 characters, digits everywhere except dashes at positions 4, 7,
10, 13 and 16 (the spec's regex `\d{4}-\d{2}-\d{2}-\d{2}-\d{2}-\d{2}`). -/
def tsShape (s : String) : Bool :=
  match s.data with
  | [y1, y2, y3, y4, a1, m1, m2, a2, d1, d2, a3, h1, h2, a4, n1, n2, a5, s1, s2] =>
    isDigitCh y1 && isDigitCh y2 && isDigitCh y3 && isDigitCh y4 &&
    decide (a1 = '-') && isDigitCh m1 && isDigitCh m2 && decide (a2 = '-') &&
    isDigitCh d1 && isDigitCh d2 && decide (a3 = '-') && isDigitCh h1 && isDigitCh h2 &&
    decide (a4 = '-') && isDigitCh n1 && isDigitCh n2 && decide (a5 = '-') &&
    isDigitCh s1 && isDigitCh s2
  | _ => false

/-- Concrete options record: only the two required fields are supplied. -/
def o1 : AutoDeployOptions := { remoteIp := .val "1.2.3.4", remoteDir := .val "/var/www/app" }

/-- The normalization of `o1`, written out. -/
def cfg1 : AutoDeployOptions :=
  { remoteUser := .val "root", remoteIp := .val "1.2.3.4", remotePort := .val "22",
    remoteDir := .val "/var/www/app", backupDir := .val "/var/www/app_backups",
    privateKey := .absent, transport := .val "scp", localDist := .val "dist",
    autoConfirm := .val false }

/-- Concrete options record with `autoConfirm: true`. -/
def acOpts : AutoDeployOptions :=
  { remoteIp := .val "1.2.3.4", remoteDir := .val "/var/www/app", autoConfirm := .val true }

/-- Concrete options record with `autoConfirm: false`. -/
def mOpts : AutoDeployOptions :=
  { remoteIp := .val "1.2.3.4", remoteDir := .val "/var/www/app", autoConfirm := .val false }

/-- Concrete options record with an explicit `backupDir`. -/
def exOpts : AutoDeployOptions :=
  { remoteIp := .val "1.2.3.4", remoteDir := .val "/var/www/app",
    backupDir := .val "/custom_bk" }

/-- Concrete options record with an unrecognized `transport` value. -/
def ftpOpts : AutoDeployOptions :=
  { remoteIp := .val "1.2.3.4", remoteDir := .val "/var/www/app", transport := .val "ftp",
    autoConfirm := .val true }

/-- The normalization of `ftpOpts`, written out. -/
def ftpCfg : AutoDeployOptions :=
  { remoteUser := .val "root", remoteIp := .val "1.2.3.4", remotePort := .val "22",
    remoteDir := .val "/var/www/app", backupDir := .val "/var/www/app_backups",
    privateKey := .absent, transport := .val "ftp", localDist := .val "dist",
    autoConfirm := .val true }

/-- Concrete options record with an out-of-range `remotePort`. -/
def badPortOpts : AutoDeployOptions :=
  { remoteIp := .val "1.2.3.4", remoteDir := .val "/var/www/app", remotePort := .val "99999" }

/-- Concrete options record whose optional keys are all present with value
`undefined`. -/
def undefOpts : AutoDeployOptions :=
  { remoteUser := .undef, remoteIp := .val "1.2.3.4", remotePort := .undef,
    remoteDir := .val "/var/www/app", backupDir := .undef, privateKey := .absent,
    transport := .undef, localDist := .undef, autoConfirm := .undef }

/-- A concrete deployment-start instant. -/
def wDate : JSDate := ⟨2025, 11, 7, 12, 34, 56, 789⟩

/-- A string-typed field is falsy exactly when it reads as `undefined` or as
the empty string. -/
lemma truthyS_eq_false_iff (f : JSField String) :
    truthyS f = false ↔ (f.get = none ∨ f.get = some "") := by
  cases f <;> simp [truthyS, JSField.get]

/-- Spreading a non-`undefined` field over its own default yields a proper
value: the supplied value, or the default when the key is absent. -/
lemma spread_nullish (f : JSField α) (d : α) (hf : f ≠ .undef) :
    (JSField.val (f.nullish d)).spread f = .val (f.nullish d) := by
  cases f <;> simp_all [JSField.spread, JSField.nullish, JSField.get]

/-- When the required fields are truthy, `normalizeOptions` succeeds and the
resulting record is the default-then-spread combination, field by field. -/
lemma normalizeOptions_ok (opts : AutoDeployOptions)
    (h1 : truthyS opts.remoteIp = true) (h2 : truthyS opts.remoteDir = true) :
    normalizeOptions opts = .ok {
      remoteUser := (JSField.val (opts.remoteUser.nullish "root")).spread opts.remoteUser
      remotePort := (JSField.val (opts.remotePort.nullish "22")).spread opts.remotePort
      transport := (JSField.val (opts.transport.nullish "scp")).spread opts.transport
      backupDir := (JSField.val
        (opts.backupDir.nullish (jsStr opts.remoteDir ++ "_backups"))).spread opts.backupDir
      localDist := (JSField.val (opts.localDist.nullish "dist")).spread opts.localDist
      autoConfirm := (JSField.val (opts.autoConfirm.nullish false)).spread opts.autoConfirm
      remoteIp := opts.remoteIp
      remoteDir := opts.remoteDir
      privateKey := opts.privateKey } := by
  simp [normalizeOptions, h1, h2]

/-- Inversion: a successful normalization forces both required fields to be
truthy and determines the output record. -/
lemma normalizeOptions_inv (opts cfg : AutoDeployOptions)
    (hn : normalizeOptions opts = .ok cfg) :
    truthyS opts.remoteIp = true ∧ truthyS opts.remoteDir = true ∧
    cfg = {
      remoteUser := (JSField.val (opts.remoteUser.nullish "root")).spread opts.remoteUser
      remotePort := (JSField.val (opts.remotePort.nullish "22")).spread opts.remotePort
      transport := (JSField.val (opts.transport.nullish "scp")).spread opts.transport
      backupDir := (JSField.val
        (opts.backupDir.nullish (jsStr opts.remoteDir ++ "_backups"))).spread opts.backupDir
      localDist := (JSField.val (opts.localDist.nullish "dist")).spread opts.localDist
      autoConfirm := (JSField.val (opts.autoConfirm.nullish false)).spread opts.autoConfirm
      remoteIp := opts.remoteIp
      remoteDir := opts.remoteDir
      privateKey := opts.privateKey } := by
  by_cases h1 : truthyS opts.remoteIp = false
  · simp [normalizeOptions, h1] at hn
  · by_cases h2 : truthyS opts.remoteDir = false
    · simp [normalizeOptions, h1, h2] at hn
    · simp only [Bool.not_eq_false] at h1 h2
      refine ⟨h1, h2, ?_⟩
      rw [normalizeOptions_ok opts h1 h2] at hn
      exact (Except.ok.injEq _ _).mp hn |>.symm

/-- Claim C1: in every `closeBundle` run, either no command was executed, or
the backup-creation command failed and alone was executed (the run aborts as
`deployFailed` and the transfer is never invoked), or the backup command
succeeded and the transfer command follows it — so the backup command is
always executed before any transfer command. -/
theorem c1_backup_precedes_transfer (config : AutoDeployOptions)
    (resolvedConfig : Option ViteResolvedConfig) (stdinTTY stdoutTTY : Bool)
    (answer : String) (d : JSDate) (buildOutputDir : String) (execOk : String → Bool) :
    (closeBundle config resolvedConfig stdinTTY stdoutTTY answer d buildOutputDir execOk).2
        = [] ∨
    (execOk (mkBackupCmd config (mkBackupFile config d)) = false ∧
      closeBundle config resolvedConfig stdinTTY stdoutTTY answer d buildOutputDir execOk
        = (.deployFailed, [mkBackupCmd config (mkBackupFile config d)])) ∨
    (execOk (mkBackupCmd config (mkBackupFile config d)) = true ∧
      (closeBundle config resolvedConfig stdinTTY stdoutTTY answer d buildOutputDir execOk).2
        = [mkBackupCmd config (mkBackupFile config d), mkTransferCmd config buildOutputDir]) := by
  rcases resolvedConfig with _ | rc
  · exact Or.inl rfl
  · by_cases hc : rc.command = "build"
    · by_cases hg : (shouldProceed config stdinTTY stdoutTTY answer).proceed = false
      · exact Or.inl (by simp [closeBundle, hc, hg])
      · by_cases hb : execOk (mkBackupCmd config (mkBackupFile config d)) = false
        · exact Or.inr (Or.inl ⟨hb, by simp [closeBundle, hc, hg, hb]⟩)
        · simp only [Bool.not_eq_false] at hb
          refine Or.inr (Or.inr ⟨hb, ?_⟩)
          by_cases ht : execOk (mkTransferCmd config buildOutputDir) = false <;>
            simp [closeBundle, hc, hg, hb, ht]
    · exact Or.inl (by simp [closeBundle, hc])

/-- Claim C2: `normalizeOptions` fails exactly when `remoteIp` or `remoteDir`
is missing or empty; for any other partial record (optional keys absent or
carrying proper values) it returns a record in which every §3 field is
populated, with defaults `remoteUser="root"`, `remotePort="22"`,
`transport="scp"`, `backupDir=remoteDir ++ "_backups"`, `localDist="dist"`,
`autoConfirm=false`, and explicitly supplied values (in particular an explicit
`backupDir`) taking precedence over the defaults. -/
theorem c2_normalizer_contract (opts : AutoDeployOptions)
    (hu : opts.remoteUser ≠ .undef) (hp : opts.remotePort ≠ .undef)
    (ht : opts.transport ≠ .undef) (hb : opts.backupDir ≠ .undef)
    (hl : opts.localDist ≠ .undef) (ha : opts.autoConfirm ≠ .undef) :
    ((∃ e, normalizeOptions opts = .error e) ↔
      (opts.remoteIp.get = none ∨ opts.remoteIp.get = some "" ∨
       opts.remoteDir.get = none ∨ opts.remoteDir.get = some "")) ∧
    (∀ cfg, normalizeOptions opts = .ok cfg →
      (opts.remoteUser = .absent → cfg.remoteUser = .val "root") ∧
      (opts.remotePort = .absent → cfg.remotePort = .val "22") ∧
      (opts.transport = .absent → cfg.transport = .val "scp") ∧
      (opts.localDist = .absent → cfg.localDist = .val "dist") ∧
      (opts.autoConfirm = .absent → cfg.autoConfirm = .val false) ∧
      (∀ rd, opts.backupDir = .absent → opts.remoteDir = .val rd →
        cfg.backupDir = .val (rd ++ "_backups")) ∧
      (∀ v, opts.remoteUser = .val v → cfg.remoteUser = .val v) ∧
      (∀ v, opts.remotePort = .val v → cfg.remotePort = .val v) ∧
      (∀ v, opts.transport = .val v → cfg.transport = .val v) ∧
      (∀ v, opts.backupDir = .val v → cfg.backupDir = .val v) ∧
      (∀ v, opts.localDist = .val v → cfg.localDist = .val v) ∧
      (∀ v, opts.autoConfirm = .val v → cfg.autoConfirm = .val v) ∧
      cfg.remoteIp = opts.remoteIp ∧ cfg.remoteDir = opts.remoteDir ∧
      cfg.privateKey = opts.privateKey ∧
      (∃ u, cfg.remoteUser = .val u) ∧ (∃ p, cfg.remotePort = .val p) ∧
      (∃ t, cfg.transport = .val t) ∧ (∃ b, cfg.backupDir = .val b) ∧
      (∃ l, cfg.localDist = .val l) ∧ (∃ a, cfg.autoConfirm = .val a) ∧
      (∃ ip, ip ≠ "" ∧ cfg.remoteIp = .val ip) ∧
      (∃ rd, rd ≠ "" ∧ cfg.remoteDir = .val rd)) := by
  constructor
  · constructor
    · rintro ⟨e, he⟩
      by_cases h1 : truthyS opts.remoteIp = false
      · rcases (truthyS_eq_false_iff _).mp h1 with h | h
        · exact Or.inl h
        · exact Or.inr (Or.inl h)
      · by_cases h2 : truthyS opts.remoteDir = false
        · rcases (truthyS_eq_false_iff _).mp h2 with h | h
          · exact Or.inr (Or.inr (Or.inl h))
          · exact Or.inr (Or.inr (Or.inr h))
        · simp only [Bool.not_eq_false] at h1 h2
          rw [normalizeOptions_ok opts h1 h2] at he
          cases he
    · intro h
      have hor : truthyS opts.remoteIp = false ∨ truthyS opts.remoteDir = false := by
        rcases h with h | h | h | h
        · exact Or.inl ((truthyS_eq_false_iff _).mpr (Or.inl h))
        · exact Or.inl ((truthyS_eq_false_iff _).mpr (Or.inr h))
        · exact Or.inr ((truthyS_eq_false_iff _).mpr (Or.inl h))
        · exact Or.inr ((truthyS_eq_false_iff _).mpr (Or.inr h))
      rcases hor with h1 | h1
      · exact ⟨"缺少必填配置：remoteIp（服务器 IP）", by simp [normalizeOptions, h1]⟩
      · by_cases h0 : truthyS opts.remoteIp = false
        · exact ⟨"缺少必填配置：remoteIp（服务器 IP）", by simp [normalizeOptions, h0]⟩
        · exact ⟨"缺少必填配置：remoteDir（服务器目标目录）",
            by simp [normalizeOptions, h0, h1]⟩
  · intro cfg hn
    obtain ⟨h1, h2, hcfg⟩ := normalizeOptions_inv opts cfg hn
    subst hcfg
    obtain ⟨rd, hrd, hrdne⟩ : ∃ rd, opts.remoteDir = .val rd ∧ rd ≠ "" := by
      cases hd : opts.remoteDir <;> simp_all [truthyS]
    obtain ⟨ip, hip, hipne⟩ : ∃ ip, opts.remoteIp = .val ip ∧ ip ≠ "" := by
      cases hd : opts.remoteIp <;> simp_all [truthyS]
    refine ⟨?_, ?_, ?_, ?_, ?_, ?_, ?_, ?_, ?_, ?_, ?_, ?_, rfl, rfl, rfl,
      ?_, ?_, ?_, ?_, ?_, ?_, ⟨ip, hipne, hip⟩, ⟨rd, hrdne, hrd⟩⟩
    · intro h; simp [h, JSField.spread, JSField.nullish, JSField.get]
    · intro h; simp [h, JSField.spread, JSField.nullish, JSField.get]
    · intro h; simp [h, JSField.spread, JSField.nullish, JSField.get]
    · intro h; simp [h, JSField.spread, JSField.nullish, JSField.get]
    · intro h; simp [h, JSField.spread, JSField.nullish, JSField.get]
    · intro rd' h h'; simp [h, h', JSField.spread, JSField.nullish, JSField.get, jsStr]
    · intro v h; simp [h, JSField.spread, JSField.nullish, JSField.get]
    · intro v h; simp [h, JSField.spread, JSField.nullish, JSField.get]
    · intro v h; simp [h, JSField.spread, JSField.nullish, JSField.get]
    · intro v h; simp [h, JSField.spread, JSField.nullish, JSField.get]
    · intro v h; simp [h, JSField.spread, JSField.nullish, JSField.get]
    · intro v h; simp [h, JSField.spread, JSField.nullish, JSField.get]
    · rw [spread_nullish _ _ hu]; exact ⟨_, rfl⟩
    · rw [spread_nullish _ _ hp]; exact ⟨_, rfl⟩
    · rw [spread_nullish _ _ ht]; exact ⟨_, rfl⟩
    · rw [spread_nullish _ _ hb]; exact ⟨_, rfl⟩
    · rw [spread_nullish _ _ hl]; exact ⟨_, rfl⟩
    · rw [spread_nullish _ _ ha]; exact ⟨_, rfl⟩

/-- Witness for C2: an explicit `backupDir` wins over the computed default,
the absent `remoteUser` gets "root", and a record missing `remoteIp` fails. -/
theorem c2_normalizer_contract_witness :
    (∀ cfg, normalizeOptions exOpts = .ok cfg →
      cfg.backupDir = .val "/custom_bk" ∧ cfg.remoteUser = .val "root") ∧
    (∃ e, normalizeOptions { remoteDir := .val "/x" } = .error e) := by
  constructor
  · intro cfg hn
    obtain ⟨hru, hrp, htr, hld, hac, hbd, hvu, hvp, hvt, hvb, hvl, hva, hrest⟩ :=
      (c2_normalizer_contract exOpts (by decide) (by decide) (by decide) (by decide)
        (by decide) (by decide)).2 cfg hn
    exact ⟨hvb "/custom_bk" rfl, hru rfl⟩
  · exact (c2_normalizer_contract { remoteDir := .val "/x" } (by decide) (by decide)
      (by decide) (by decide) (by decide) (by decide)).1.mpr (Or.inl rfl)

/-- Claim C3: the confirmation gate proceeds without prompting when
`autoConfirm` is strictly `true`; otherwise in a non-interactive environment
it declines without prompting; otherwise it prompts exactly once and proceeds
exactly when the trimmed, lower-cased answer is "y" or "yes". -/
theorem c3_confirmation_gate (config : AutoDeployOptions) (stdinTTY stdoutTTY : Bool)
    (answer : String) :
    (isTrue config.autoConfirm = true →
      shouldProceed config stdinTTY stdoutTTY answer = ⟨true, 0⟩) ∧
    (isTrue config.autoConfirm = false → (stdinTTY = false ∨ stdoutTTY = false) →
      shouldProceed config stdinTTY stdoutTTY answer = ⟨false, 0⟩) ∧
    (isTrue config.autoConfirm = false → stdinTTY = true → stdoutTTY = true →
      (shouldProceed config stdinTTY stdoutTTY answer).prompts = 1 ∧
      ((shouldProceed config stdinTTY stdoutTTY answer).proceed = true ↔
        (jsToLower (jsTrim answer) = "y" ∨ jsToLower (jsTrim answer) = "yes"))) := by
  refine ⟨fun h => by simp [shouldProceed, h], fun h hio => ?_, fun h hi ho => ?_⟩
  · rcases hio with hio | hio <;>
      simp [shouldProceed, askForConfirmation, h, hio]
  · constructor
    · simp [shouldProceed, askForConfirmation, h, hi, ho]
    · simp [shouldProceed, askForConfirmation, h, hi, ho, testYes]

/-- Witness for C3: `autoConfirm` skips the prompt even on a declining answer,
a non-TTY stdin declines a "yes" answer without prompting, and interactively
" YES " proceeds after one prompt while "maybe" declines. -/
theorem c3_confirmation_gate_witness :
    shouldProceed acOpts true true "n" = ⟨true, 0⟩ ∧
    shouldProceed mOpts false true "yes" = ⟨false, 0⟩ ∧
    (shouldProceed mOpts true true " YES ").prompts = 1 ∧
    (shouldProceed mOpts true true " YES ").proceed = true ∧
    (shouldProceed mOpts true true "maybe").proceed = false := by
  refine ⟨(c3_confirmation_gate acOpts true true "n").1 rfl,
    (c3_confirmation_gate mOpts false true "yes").2.1 rfl (Or.inl rfl),
    ((c3_confirmation_gate mOpts true true " YES ").2.2 rfl rfl rfl).1,
    ((c3_confirmation_gate mOpts true true " YES ").2.2 rfl rfl rfl).2.mpr
      (Or.inr (by decide)), ?_⟩
  have h := ((c3_confirmation_gate mOpts true true "maybe").2.2 rfl rfl rfl).2
  by_cases hp : (shouldProceed mOpts true true "maybe").proceed = true
  · rcases h.mp hp with hx | hx <;> exact absurd hx (by decide)
  · simpa using hp

/-- Claim C4: whenever the listing output parses to a non-empty sequence, the
rollback restores its first entry — the restore command is built from exactly
that path, whether the restore then succeeds or fails. -/
theorem c4_rollback_restores_newest (opts cfg : AutoDeployOptions) (out t : String)
    (rest : List String) (hn : normalizeOptions opts = .ok cfg)
    (hp : parseBackups out = t :: rest) :
    rollback opts (some out) true = .restored [mkListCmd cfg, mkRestoreCmd cfg t] t ∧
    rollback opts (some out) false = .restoreFailed [mkListCmd cfg, mkRestoreCmd cfg t] ∧
    mkRestoreCmd cfg t =
      mkRollbackSshBase cfg ++ " \"tar -zxvf " ++ t ++ " -C " ++
        jsStr cfg.remoteDir ++ "\"" := by
  refine ⟨?_, ?_, rfl⟩ <;> simp [rollback, hn, hp]

/-- Witness for C4: the listing output "b3.tar.gz\nb2.tar.gz\nb1.tar.gz"
parses in order and the restore targets "b3.tar.gz". -/
theorem c4_rollback_restores_newest_witness :
    parseBackups "b3.tar.gz\nb2.tar.gz\nb1.tar.gz" = ["b3.tar.gz", "b2.tar.gz", "b1.tar.gz"] ∧
    rollback o1 (some "b3.tar.gz\nb2.tar.gz\nb1.tar.gz") true =
      .restored [mkListCmd cfg1, mkRestoreCmd cfg1 "b3.tar.gz"] "b3.tar.gz" :=
  ⟨by decide, (c4_rollback_restores_newest o1 cfg1 "b3.tar.gz\nb2.tar.gz\nb1.tar.gz"
      "b3.tar.gz" ["b2.tar.gz", "b1.tar.gz"] rfl (by decide)).1⟩

/-- Claim C5: whenever the listing output parses to the empty sequence, the
rollback fails with the no-backups error after executing only the listing
command — the restore command is never invoked. -/
theorem c5_no_backups_error (opts cfg : AutoDeployOptions) (out : String) (restoreOk : Bool)
    (hn : normalizeOptions opts = .ok cfg) (hp : parseBackups out = []) :
    rollback opts (some out) restoreOk =
      .noBackups [mkListCmd cfg] "没有找到备份文件，请先部署至少一次" := by
  simp [rollback, hn, hp]

/-- Witness for C5: the empty listing output triggers the no-backups error. -/
theorem c5_no_backups_error_witness :
    parseBackups "" = [] ∧
    rollback o1 (some "") true =
      .noBackups [mkListCmd cfg1] "没有找到备份文件，请先部署至少一次" :=
  ⟨by decide, c5_no_backups_error o1 cfg1 "" true rfl (by decide)⟩

/-- The single-character replacement leaves digit characters unchanged. -/
lemma replChar_digit (n : Nat) : replChar (digit n) = digit n := by
  unfold digit
  have h : n % 10 < 10 := Nat.mod_lt _ (by norm_num)
  set k := n % 10 with hk
  interval_cases k <;> decide

/-- Rendered digit characters are decimal digits. -/
lemma isDigitCh_digit (n : Nat) : isDigitCh (digit n) = true := by
  unfold digit
  have h : n % 10 < 10 := Nat.mod_lt _ (by norm_num)
  set k := n % 10 with hk
  interval_cases k <;> decide

/-- The 19 characters kept by `.slice(0, 19)`: the date and time digits with
every separator replaced by a dash, dropping the `.sssZ` tail. -/
lemma timestamp_data (d : JSDate) : (timestamp d).data =
    [replChar (digit (d.year / 1000)), replChar (digit (d.year / 100)),
     replChar (digit (d.year / 10)), replChar (digit d.year), '-',
     replChar (digit (d.month / 10)), replChar (digit d.month), '-',
     replChar (digit (d.day / 10)), replChar (digit d.day), '-',
     replChar (digit (d.hour / 10)), replChar (digit d.hour), '-',
     replChar (digit (d.minute / 10)), replChar (digit d.minute), '-',
     replChar (digit (d.second / 10)), replChar (digit d.second)] := by
  show (((toISOStringChars d).map replChar).take 19) = _
  simp [toISOStringChars, pad4c, pad2c, pad3c, replChar]

/-- The produced timestamp always has the `YYYY-MM-DD-HH-MM-SS` shape. -/
lemma tsShape_timestamp (d : JSDate) : tsShape (timestamp d) = true := by
  unfold tsShape
  rw [timestamp_data]
  simp [replChar_digit, isDigitCh_digit]

/-- Claim C6: for every configuration and every deployment-start time (with
its components in the ranges a real `Date` produces), the backup archive path
is exactly `backupDir ++ "/" ++ ts ++ "_backup.tar.gz"` where `ts` is the
start time rendered as `YYYY-MM-DD-HH-MM-SS`. -/
theorem c6_backup_path_shape (config : AutoDeployOptions) (d : JSDate)
    (_hy : d.year < 10000) (_hmo : d.month ≤ 12) (_hd : d.day ≤ 31)
    (_hh : d.hour < 24) (_hm : d.minute < 60) (_hs : d.second < 60) (_hms : d.ms < 1000) :
    ∃ ts, mkBackupFile config d = jsStr config.backupDir ++ "/" ++ ts ++ "_backup.tar.gz" ∧
      ts = timestamp d ∧ tsShape ts = true :=
  ⟨timestamp d, rfl, rfl, tsShape_timestamp d⟩

/-- Witness for C6, at the instant 2025-11-07T12:34:56.789Z. -/
theorem c6_backup_path_shape_witness :
    timestamp wDate = "2025-11-07-12-34-56" ∧
    (∃ ts, mkBackupFile cfg1 wDate = jsStr cfg1.backupDir ++ "/" ++ ts ++ "_backup.tar.gz" ∧
      ts = timestamp wDate ∧ tsShape ts = true) :=
  ⟨by decide, c6_backup_path_shape cfg1 wDate (by decide) (by decide) (by decide)
    (by decide) (by decide) (by decide) (by decide)⟩

/-- Counterexample to C7: the unrecognized transport "ftp" is accepted by
`normalizeOptions` (no configuration-construction failure), and at deploy time
the transfer command is the empty string, which is passed to `execSync` —
a runtime failure during deploy execution, not a normalization rejection. -/
theorem c7_counterexample :
    normalizeOptions ftpOpts = .ok ftpCfg ∧
    mkTransferCmd ftpCfg "dist" = "" ∧
    (closeBundle ftpCfg (some ⟨"build", "dist"⟩) true true "y" wDate "dist"
        (fun _ => true)).2 =
      [mkBackupCmd ftpCfg (mkBackupFile ftpCfg wDate), ""] :=
  ⟨rfl, rfl, by decide⟩

/-- Claim C7 as amended: the transfer construction is a discriminated choice
over exactly the variants "scp" and "rsync" — any other transport yields the
empty transfer command — but normalization never rejects a transport value:
any record with truthy `remoteIp` and `remoteDir` normalizes successfully. -/
theorem c7_amended_transfer_choice (opts : AutoDeployOptions) (buildOutputDir : String)
    (h1 : truthyS opts.remoteIp = true) (h2 : truthyS opts.remoteDir = true) :
    ∃ cfg, normalizeOptions opts = .ok cfg ∧
      (mkTransferCmd cfg buildOutputDir ≠ "" →
        cfg.transport = .val "scp" ∨ cfg.transport = .val "rsync") ∧
      (cfg.transport ≠ .val "scp" → cfg.transport ≠ .val "rsync" →
        mkTransferCmd cfg buildOutputDir = "") := by
  refine ⟨_, normalizeOptions_ok opts h1 h2, fun hne => ?_, fun hs hr => ?_⟩
  · by_contra hcon
    push_neg at hcon
    exact hne (by simp [mkTransferCmd, hcon.1, hcon.2])
  · simp [mkTransferCmd, hs, hr]

/-- Witness for the amended C7: the "ftp" transport record normalizes
successfully and its transfer command is empty. -/
theorem c7_amended_transfer_choice_witness :
    ∃ cfg, normalizeOptions ftpOpts = .ok cfg ∧ mkTransferCmd cfg "dist" = "" := by
  obtain ⟨cfg, hok, _, hempty⟩ := c7_amended_transfer_choice ftpOpts "dist" rfl rfl
  have hcfg : cfg = ftpCfg :=
    (Except.ok.injEq _ _).mp (hok.symm.trans (rfl : normalizeOptions ftpOpts = .ok ftpCfg))
  exact ⟨cfg, hok, hempty (by rw [hcfg]; decide) (by rw [hcfg]; decide)⟩

/-- Claim C8, evaluated at the failing input: with `localDist` not supplied,
normalization pre-fills it with "dist", so the resolution
`config.localDist || resolved.build.outDir || 'dist'` short-circuits on the
truthy "dist" and the build tool's resolved output directory "build" is never
used. -/
theorem c8_outdir_never_used :
    normalizeOptions o1 = .ok cfg1 ∧
    cfg1.localDist = .val "dist" ∧
    resolveBuildOutputDir cfg1 "build" = "dist" :=
  ⟨rfl, rfl, rfl⟩

/-- Counterexample to C9: the out-of-range port string "99999" passes
normalization unchanged — nothing is rejected at normalization time. -/
theorem c9_counterexample :
    ∃ cfg, normalizeOptions badPortOpts = .ok cfg ∧ cfg.remotePort = .val "99999" :=
  ⟨_, rfl, rfl⟩

/-- Claim C9 as amended: `remotePort` is a string, defaults to "22" when the
key is absent, and any supplied string value passes through normalization
without integrality or range validation. -/
theorem c9_amended_port_passthrough (opts cfg : AutoDeployOptions)
    (hn : normalizeOptions opts = .ok cfg) :
    (opts.remotePort = .absent → cfg.remotePort = .val "22") ∧
    (∀ s, opts.remotePort = .val s → cfg.remotePort = .val s) := by
  obtain ⟨h1, h2, hcfg⟩ := normalizeOptions_inv opts cfg hn
  subst hcfg
  constructor
  · intro h; simp [h, JSField.spread, JSField.nullish, JSField.get]
  · intro s h; simp [h, JSField.spread, JSField.nullish, JSField.get]

/-- Witness for the amended C9: the absent port defaults to "22" and the
supplied "99999" passes through. -/
theorem c9_amended_port_passthrough_witness :
    cfg1.remotePort = .val "22" ∧
    ∃ cfg, normalizeOptions badPortOpts = .ok cfg ∧ cfg.remotePort = .val "99999" := by
  refine ⟨(c9_amended_port_passthrough o1 cfg1 rfl).1 rfl, ⟨_, rfl, ?_⟩⟩
  exact (c9_amended_port_passthrough badPortOpts _ rfl).2 "99999" rfl

/-- Claim C10: the raw record is spread over the computed defaults, so an
optional key present with value `undefined` overwrites its default — the
normalized record carries `undefined` for that field. -/
theorem c10_undef_defeats_defaults (opts cfg : AutoDeployOptions)
    (hn : normalizeOptions opts = .ok cfg) :
    (opts.remoteUser = .undef → cfg.remoteUser = .undef) ∧
    (opts.remotePort = .undef → cfg.remotePort = .undef) ∧
    (opts.transport = .undef → cfg.transport = .undef) ∧
    (opts.backupDir = .undef → cfg.backupDir = .undef) ∧
    (opts.localDist = .undef → cfg.localDist = .undef) ∧
    (opts.autoConfirm = .undef → cfg.autoConfirm = .undef) := by
  obtain ⟨h1, h2, hcfg⟩ := normalizeOptions_inv opts cfg hn
  subst hcfg
  refine ⟨?_, ?_, ?_, ?_, ?_, ?_⟩ <;>
    (intro h; simp [h, JSField.spread])

/-- Witness for C10: a record whose optional keys are all present with value
`undefined` normalizes to a record carrying `undefined` for each of them. -/
theorem c10_undef_defeats_defaults_witness :
    ∃ cfg, normalizeOptions undefOpts = .ok cfg ∧ cfg.remoteUser = .undef ∧
      cfg.remotePort = .undef ∧ cfg.transport = .undef ∧ cfg.backupDir = .undef ∧
      cfg.localDist = .undef ∧ cfg.autoConfirm = .undef := by
  refine ⟨_, rfl, ?_, ?_, ?_, ?_, ?_, ?_⟩
  · exact (c10_undef_defeats_defaults undefOpts _ rfl).1 rfl
  · exact (c10_undef_defeats_defaults undefOpts _ rfl).2.1 rfl
  · exact (c10_undef_defeats_defaults undefOpts _ rfl).2.2.1 rfl
  · exact (c10_undef_defeats_defaults undefOpts _ rfl).2.2.2.1 rfl
  · exact (c10_undef_defeats_defaults undefOpts _ rfl).2.2.2.2.1 rfl
  · exact (c10_undef_defeats_defaults undefOpts _ rfl).2.2.2.2.2 rfl
